import Mathlib

/-!
Verification of the solar_analytics ingestion and reconciliation pipeline.

Shallow embedding of the repository's five source files:
  src/setup_db.py              (store provisioning: validators, indexes)
  src/ingest/pull_daily.py     (single-day sync driver)
  src/ingest/pull_historic_energy.py (resumable energy backfill driver)
  src/ingest/pull_historic_power.py  (resumable power backfill driver)
  app.py                       (read-only dashboard; out of scope)

Store collections are modelled as lists of documents; a mongo update_one
touches the first matching document. Numeric fields are modelled as exact
rationals, except where double-precision rounding itself is at issue, for
which an explicit IEEE binary64 model over integer fractions is given.
-/

namespace Solar

/-- Calendar dates as a count of days from an arbitrary epoch; python
`dt.date` arithmetic with `timedelta(days = n)` is day-based. -/
abbrev Date := Int

/-- An upstream date string: either the ISO rendering of a calendar date or a
string that `dt.date.fromisoformat` rejects. -/
inductive DateStr
  | valid (d : Date)
  | malformed
deriving DecidableEq

/-- `dt.date.fromisoformat`: raises ValueError (modelled as `none`) on a
malformed string. -/
def fromisoformat : DateStr → Option Date
  | .valid d => some d
  | .malformed => none

/-- The string shapes of an upstream numeric field that the code
distinguishes: the empty string, the exact literal "0", some other numeral
parsing to `q` (for instance "0.0" parses to 0 but is not the literal "0"),
or a non-numeric string. -/
inductive StrNum
  | empty
  | zeroLit
  | numLit (q : ℚ)
  | malformed
deriving DecidableEq

/-- An upstream `energy` field value: JSON null, a number, or a string
(the spec's upstream interface gives `energy: number|string`). -/
inductive EField
  | null
  | num (q : ℚ)
  | strv (s : StrNum)
deriving DecidableEq

/-- `float(r["energy"])`: None raises TypeError, the empty string and
non-numeric strings raise ValueError; every caller catches both and treats
them as a parse failure, so both are modelled as `none`. -/
def floatOfE : EField → Option ℚ
  | .null => none
  | .num q => some q
  | .strv .empty => none
  | .strv .zeroLit => some 0
  | .strv (.numLit q) => some q
  | .strv .malformed => none

/-- The membership test `r["energy"] in ("", None, "0", 0, 0.0)` of
pull_historic_energy.py line 69. Python `in` compares with `==`: a numeric
0 or 0.0 matches, the exact strings "" and "0" match, and any other string
(such as "0.0") does not. -/
def isEnergyStop : EField → Bool
  | .null => true
  | .num q => q == 0
  | .strv .empty => true
  | .strv .zeroLit => true
  | .strv (.numLit _) => false
  | .strv .malformed => false

/-- One element of an `energys` payload: `{date, energy}`. -/
structure EnergyRecord where
  date : DateStr
  energy : EField
deriving DecidableEq

/-- An upstream `time` field: missing or empty (falsy in
`if record.get("time")`), a parseable local timestamp, or a truthy string
that `fromisoformat` rejects. Timestamps are modelled as integers (instants);
the IST-to-UTC conversion is a bijection on instants and is dropped. -/
inductive TimeStr
  | missing
  | valid (t : Int)
  | malformed
deriving DecidableEq

def timeTruthy : TimeStr → Bool
  | .missing => false
  | .valid _ => true
  | .malformed => true

/-- One element of a `powers` payload: `{time, power}`; `power` is
number-or-null. -/
structure PowerRecord where
  time : TimeStr
  power : Option ℚ
deriving DecidableEq

/-- The membership test `r["power"] in (None, 0)` (python `==`: a numeric
0.0 also matches 0). -/
def isPowerStop (p : Option ℚ) : Bool := p == none || p == some 0

/-- A document of a `daily_energy` collection. -/
structure EnergyDoc where
  plant_id : Int
  date : Date
  energy_kwh : ℚ
deriving DecidableEq

/-- A document of a `power_readings` collection. -/
structure PowerDoc where
  plant_id : Int
  timestamp : Int
  power_w : ℚ
deriving DecidableEq

/-- The metric discriminator of the data model's IngestCursor. -/
inductive MetricKind
  | power
  | energy
deriving DecidableEq

/-- A document of the `ingest_meta` collection. pull_historic_energy.py
writes `metric: "energy"`; pull_historic_power.py writes no metric field at
all (modelled as `none`). The `updated_at` field carries no information any
claim needs and is dropped. -/
structure MetaDoc where
  plant_id : Int
  metric : Option MetricKind
  last_date : Date
deriving DecidableEq

/-- Replace the first element satisfying `p` (a mongo update_one modifies at
most one document). -/
def updateFirst {α : Type} (p : α → Bool) (f : α → α) : List α → List α
  | [] => []
  | x :: xs => if p x then f x :: xs else x :: updateFirst p f xs

/-- pull_daily.py lines 150-155: `ener.update_one({plant_id, date},
{"$set": doc}, upsert=True)` against solar_data_v2.daily_energy — replace
the matching document's fields, or insert the document if absent. -/
def upsertEnergy (store : List EnergyDoc) (doc : EnergyDoc) : List EnergyDoc :=
  if store.any (fun e => e.plant_id == doc.plant_id && e.date == doc.date) then
    updateFirst (fun e => e.plant_id == doc.plant_id && e.date == doc.date)
      (fun _ => doc) store
  else store ++ [doc]

/-- `insert_many(docs, ordered=False)` into a power_readings collection.
setup_db.py provisions only the solar_data database, its power_readings is a
timeseries collection and its index plant_ts_idx (lines 28-31) is not
declared unique; the solar_data_v2 collections that pull_daily.py writes are
never provisioned at all. So no power insert can raise a duplicate-key
error: every document is appended. -/
def insertManyAppend (store docs : List PowerDoc) : List PowerDoc := store ++ docs

/-- A mongo write error, identified by its error code. -/
abbrev ErrCode := Nat

/-- One document of an `insert_many` into solar_data.daily_energy, which
setup_db.py lines 34-51 provisions with a $jsonSchema validator
(`energy_kwh` minimum 0, giving error code 121 on violation) and the unique
index plant_date_idx on (plant_id, date) (giving code 11000 on duplicates). -/
def insertOneEnergyV1 (store : List EnergyDoc) (d : EnergyDoc) :
    List EnergyDoc × Option ErrCode :=
  if d.energy_kwh < 0 then (store, some 121)
  else if store.any (fun e => e.plant_id == d.plant_id && e.date == d.date) then
    (store, some 11000)
  else (store ++ [d], none)

/-- `ener.insert_many(docs, ordered=False)` of pull_historic_energy.py
line 92: unordered, so a failing document is skipped while the rest are
inserted; the write error codes are what `bwe.details["writeErrors"]`
reports. -/
def insertManyEnergyV1 : List EnergyDoc → List EnergyDoc → List EnergyDoc × List ErrCode
  | store, [] => (store, [])
  | store, d :: ds =>
    match insertOneEnergyV1 store d with
    | (store1, none) => insertManyEnergyV1 store1 ds
    | (store1, some c) =>
      ((insertManyEnergyV1 store1 ds).1, c :: (insertManyEnergyV1 store1 ds).2)

/-- pull_historic_energy.py line 32: `meta.find_one({plant_id,
metric: "energy"})`. -/
def readCursorEnergy (meta : List MetaDoc) (plant : Int) : Option Date :=
  (meta.find? (fun m => m.plant_id == plant && m.metric == some .energy)).map
    (fun m => m.last_date)

/-- pull_historic_energy.py lines 98-107: `meta.update_one({plant_id,
metric: "energy"}, {"$set": {last_date, updated_at}}, upsert=True)`; a mongo
upsert seeds a newly inserted document from the equality fields of the
filter, so an inserted cursor carries metric "energy". -/
def writeCursorEnergy (meta : List MetaDoc) (plant : Int) (d : Date) : List MetaDoc :=
  if meta.any (fun m => m.plant_id == plant && m.metric == some .energy) then
    updateFirst (fun m => m.plant_id == plant && m.metric == some .energy)
      (fun m => { m with last_date := d }) meta
  else meta ++ [⟨plant, some .energy, d⟩]

/-- pull_historic_power.py line 30: `meta.find_one({"plant_id": ...})` —
no metric in the filter. -/
def readCursorPower (meta : List MetaDoc) (plant : Int) : Option Date :=
  (meta.find? (fun m => m.plant_id == plant)).map (fun m => m.last_date)

/-- pull_historic_power.py lines 86-95: `meta.update_one({"plant_id": ...},
{"$set": {last_date, updated_at}}, upsert=True)` — no metric in the filter,
so it updates whichever cursor document the plant has (also one whose metric
is "energy"), and a document inserted by the upsert has no metric field. -/
def writeCursorPower (meta : List MetaDoc) (plant : Int) (d : Date) : List MetaDoc :=
  if meta.any (fun m => m.plant_id == plant) then
    updateFirst (fun m => m.plant_id == plant)
      (fun m => { m with last_date := d }) meta
  else meta ++ [⟨plant, none, d⟩]

/-- validate_and_upsert_energy_data of pull_daily.py (lines 95-136), the
validation part. `if not energy_data` catches both a None payload (API
failure) and an empty list; a payload of length other than one is skipped;
then the single record's date and energy are parsed (ValueError/TypeError
skip), the parsed date must equal the requested one and the energy must not
be negative. Returns the document to upsert, or `none` for a skip (each skip
branch logs its reason; logging is not modelled). -/
def validateEnergyData (energy_data : Option (List EnergyRecord)) (date : Date)
    (plant : Int) : Option EnergyDoc :=
  match energy_data with
  | none => none
  | some [] => none
  | some [r] =>
    match fromisoformat r.date, floatOfE r.energy with
    | some day, some kwh =>
      if day ≠ date then none
      else if kwh < 0 then none
      else some ⟨plant, day, kwh⟩
    | _, _ => none
  | some (_ :: _ :: _) => none

/-- validate_and_upsert_energy_data, store effect and return value: the
document is upserted and its energy_kwh returned, or nothing is written and
None returned. -/
def dailyEnergyStep (store : List EnergyDoc) (energy_data : Option (List EnergyRecord))
    (date : Date) (plant : Int) : List EnergyDoc × Option ℚ :=
  match validateEnergyData energy_data date plant with
  | none => (store, none)
  | some doc => (upsertEnergy store doc, some doc.energy_kwh)

/-- One record of the parse loop of validate_and_upsert_power_data
(pull_daily.py lines 190-215): a record with falsy time is not processed, an
unparseable time raises ValueError inside the try and the record is skipped,
and `float(record.get("power", 0.0) or 0.0)` maps a null (or zero) power to
0.0. -/
def parsePowerRecord (plant : Int) (r : PowerRecord) : Option PowerDoc :=
  if timeTruthy r.time then
    match r.time with
    | .valid t => some ⟨plant, t, r.power.getD 0⟩
    | _ => none
  else none

/-- The retained documents of a power payload. -/
def powerDocs (plant : Int) (power_data : List PowerRecord) : List PowerDoc :=
  power_data.filterMap (parsePowerRecord plant)

/-- `interval_hours = 5 / 60` of pull_daily.py line 188, exact-rational
reading (the double-precision reading is pyIntervalFx below). -/
def interval_hours : ℚ := 5 / 60

/-- The accumulation `total_energy_wh += power * interval_hours` over the
retained documents (exact-rational model of the float arithmetic). -/
def totalEnergyWh (docs : List PowerDoc) : ℚ :=
  docs.foldl (fun s d => s + d.power_w * interval_hours) 0

/-- `total_energy_kwh = total_energy_wh / 1000.0`. -/
def totalEnergyKwh (docs : List PowerDoc) : ℚ := totalEnergyWh docs / 1000

/-- Result of the reconciliation check (spec section 4.3). -/
inductive ReconcileResult
  | agreement
  | discrepancy (delta : ℚ)
deriving DecidableEq

/-- The cross-check of pull_daily.py lines 228-235: the mismatch is flagged
(logged) exactly when `abs(total_energy_kwh - energy)` exceeds the
tolerance; the code's literal tolerance is 1.0. -/
def reconcile (calculated reported tolerance : ℚ) : ReconcileResult :=
  if |calculated - reported| > tolerance then .discrepancy |calculated - reported|
  else .agreement

/-- validate_and_upsert_power_data (pull_daily.py lines 164-258): skip on a
None or empty payload, skip when every record's power is null or zero, skip
when no record survives parsing; otherwise the reconcile result is computed
(and logged) when an energy figure is present and the documents are inserted
regardless of that result. Returns the new store and the reconcile result. -/
def dailyPowerStep (store : List PowerDoc) (power_data : Option (List PowerRecord))
    (plant : Int) (energy : Option ℚ) : List PowerDoc × Option ReconcileResult :=
  match power_data with
  | none => (store, none)
  | some l =>
    if l.isEmpty then (store, none)
    else if l.all (fun r => isPowerStop r.power) then (store, none)
    else if (powerDocs plant l).isEmpty then (store, none)
    else
      (insertManyAppend store (powerDocs plant l),
       energy.map (fun e => reconcile (totalEnergyKwh (powerDocs plant l)) e 1))

/-- The two collections pull_daily.py writes (solar_data_v2). -/
structure DailyState where
  ener : List EnergyDoc
  pwr : List PowerDoc
deriving DecidableEq

/-- pull_daily_data: energy is validated and upserted first, then power is
pulled and validated with the returned energy figure. -/
def pullDailyData (st : DailyState) (energy_payload : Option (List EnergyRecord))
    (power_payload : Option (List PowerRecord)) (date : Date) (plant : Int) :
    DailyState :=
  ⟨(dailyEnergyStep st.ener energy_payload date plant).1,
   (dailyPowerStep st.pwr power_payload plant
      (dailyEnergyStep st.ener energy_payload date plant).2).1⟩

/-- Outcome of one backfill loop iteration: break out of the loop, an
uncaught exception, or continue with the next window anchor. -/
inductive BackfillOutcome
  | stopped
  | raised
  | continued (next : Date)
deriving DecidableEq

/-- The store writes a backfill iteration performs, in order. -/
inductive StoreOp
  | insertEnergyDocs (docs : List EnergyDoc)
  | insertPowerDocs (docs : List PowerDoc)
  | cursorWrite (plant : Int) (metric : Option MetricKind) (d : Date)
deriving DecidableEq

/-- The collections pull_historic_energy.py writes (solar_data). -/
structure EnergyBackfillState where
  ener : List EnergyDoc
  meta : List MetaDoc
deriving DecidableEq

/-- The row parse of pull_historic_energy.py lines 75-88: a corrupt row
(unparseable date or energy) is skipped; there is no sign check on the
parsed energy. -/
def energyBackfillDocs (plant : Int) (rows : List EnergyRecord) : List EnergyDoc :=
  rows.filterMap (fun r =>
    match fromisoformat r.date, floatOfE r.energy with
    | some day, some kwh => some ⟨plant, day, kwh⟩
    | _, _ => none)

/-- Outcome of a BulkWriteError handler: swallowed as success, logged but
execution continues, or re-raised. -/
inductive BulkOutcome
  | success
  | loggedOnly
  | raised
deriving DecidableEq

/-- pull_daily.py lines 240-258: the handler filters out duplicate-key
(11000) write errors; if any other error remains it prints it together with
a traceback and returns — it does not re-raise; otherwise it reports the
inserted count as success. -/
def dailyBulkErrorHandler (writeErrors : List ErrCode) : BulkOutcome :=
  if (writeErrors.filter (fun c => c != 11000)).isEmpty then .success
  else .loggedOnly

/-- pull_historic_power.py lines 76-83: counts the duplicate-key errors and
re-raises when any write error is not a duplicate. -/
def historicPowerBulkHandler (writeErrors : List ErrCode) : BulkOutcome :=
  if (writeErrors.countP (fun c => c == 11000)) != writeErrors.length then .raised
  else .success

/-- pull_historic_energy.py lines 93-95: re-raises when any write error code
differs from 11000. -/
def historicEnergyBulkHandler (writeErrors : List ErrCode) : BulkOutcome :=
  if writeErrors.any (fun c => c != 11000) then .raised else .success

/-- One iteration of pull_historic_energy.py's while-loop acting on a
successful API response (a failed request sleeps and retries the same window
and is not an iteration). The inclusive 7-day window is
[cursor_end − 6, cursor_end]. Returns the trace of store writes, the new
state, and the outcome. -/
def energyBackfillStep (plant : Int) (st : EnergyBackfillState) (cursor_end : Date)
    (rows : List EnergyRecord) : List StoreOp × EnergyBackfillState × BackfillOutcome :=
  if rows.isEmpty then ([], st, .stopped)
  else if rows.all (fun r => isEnergyStop r.energy) then ([], st, .stopped)
  else if historicEnergyBulkHandler
      (insertManyEnergyV1 st.ener (energyBackfillDocs plant rows)).2 = .raised then
    ([.insertEnergyDocs (energyBackfillDocs plant rows)],
     ⟨(insertManyEnergyV1 st.ener (energyBackfillDocs plant rows)).1, st.meta⟩,
     .raised)
  else
    ([.insertEnergyDocs (energyBackfillDocs plant rows),
      .cursorWrite plant (some .energy) (cursor_end - 6)],
     ⟨(insertManyEnergyV1 st.ener (energyBackfillDocs plant rows)).1,
      writeCursorEnergy st.meta plant (cursor_end - 6)⟩,
     .continued (cursor_end - 7))

/-- The collections pull_historic_power.py writes (solar_data). -/
structure PowerBackfillState where
  pwr : List PowerDoc
  meta : List MetaDoc
deriving DecidableEq

/-- The docs comprehension of pull_historic_power.py lines 61-69: a record
with falsy time is dropped, but `dt.datetime.fromisoformat(r["time"])` is
not guarded there — a truthy unparseable time raises out of the loop
(`none`); `r["power"] or 0.0` maps null (or zero) power to 0.0. -/
def powerBackfillDocs (plant : Int) (records : List PowerRecord) :
    Option (List PowerDoc) :=
  if (records.filter (fun r => timeTruthy r.time)).any
      (fun r => r.time == .malformed) then none
  else some ((records.filter (fun r => timeTruthy r.time)).filterMap (fun r =>
    match r.time with
    | .valid t => some ⟨plant, t, r.power.getD 0⟩
    | _ => none))

/-- One iteration of pull_historic_power.py's while-loop acting on a
successful API response; the window is the single day `cursor`. No insert
into the timeseries power_readings collection can raise a duplicate-key
error (see insertManyAppend), so after the insert the cursor is always
written. -/
def powerBackfillStep (plant : Int) (st : PowerBackfillState) (cursor : Date)
    (records : List PowerRecord) : List StoreOp × PowerBackfillState × BackfillOutcome :=
  if records.isEmpty then ([], st, .stopped)
  else if records.all (fun r => isPowerStop r.power) then ([], st, .stopped)
  else
    match powerBackfillDocs plant records with
    | none => ([], st, .raised)
    | some docs =>
      ([.insertPowerDocs docs, .cursorWrite plant none cursor],
       ⟨insertManyAppend st.pwr docs, writeCursorPower st.meta plant cursor⟩,
       .continued (cursor - 1))

/-- pull_historic_energy.py lines 32-37: the resume anchor `cursor_end` is
the persisted cursor date itself when one exists, else yesterday. -/
def energyInitCursorEnd (meta : List MetaDoc) (plant : Int) (today : Date) : Date :=
  (readCursorEnergy meta plant).getD (today - 1)

/-- The first fetched window (start_date, cursor_end) of a fresh energy
backfill invocation. -/
def energyFirstWindow (meta : List MetaDoc) (plant : Int) (today : Date) :
    Date × Date :=
  (energyInitCursorEnd meta plant today - 6, energyInitCursorEnd meta plant today)

/-- pull_historic_power.py lines 30-35: the resume anchor is the persisted
cursor date itself when one exists, else today. -/
def powerInitCursor (meta : List MetaDoc) (plant : Int) (today : Date) : Date :=
  (readCursorPower meta plant).getD today

/-- The energy backfill run over a list of successful API responses: the
windows fetched (in order) and the final state. -/
def energyBackfillRun (plant : Int) :
    EnergyBackfillState → Date → List (List EnergyRecord) →
    List (Date × Date) × EnergyBackfillState
  | st, _, [] => ([], st)
  | st, ce, rows :: rest =>
    match energyBackfillStep plant st ce rows with
    | (_, st1, .continued ce1) =>
      ((ce - 6, ce) :: (energyBackfillRun plant st1 ce1 rest).1,
       (energyBackfillRun plant st1 ce1 rest).2)
    | (_, st1, .stopped) => ([(ce - 6, ce)], st1)
    | (_, st1, .raised) => ([(ce - 6, ce)], st1)

/-- The power backfill run over a list of successful API responses: the days
fetched (in order) and the final state. -/
def powerBackfillRun (plant : Int) :
    PowerBackfillState → Date → List (List PowerRecord) →
    List Date × PowerBackfillState
  | st, _, [] => ([], st)
  | st, c, recs :: rest =>
    match powerBackfillStep plant st c recs with
    | (_, st1, .continued c1) =>
      (c :: (powerBackfillRun plant st1 c1 rest).1,
       (powerBackfillRun plant st1 c1 rest).2)
    | (_, st1, .stopped) => ([c], st1)
    | (_, st1, .raised) => ([c], st1)

/-- A rational number as an unreduced fraction of integers (denominator kept
positive). Used for the IEEE binary64 model below: the Lean kernel evaluates
plain integer arithmetic, which a Rat normalization would not allow. -/
structure Fx where
  n : Int
  d : Int
deriving DecidableEq

def Fx.add (a b : Fx) : Fx := ⟨a.n * b.d + b.n * a.d, a.d * b.d⟩

def Fx.mul (a b : Fx) : Fx := ⟨a.n * b.n, a.d * b.d⟩

def Fx.inv (a : Fx) : Fx := ⟨a.d, a.n⟩

def Fx.neg (a : Fx) : Fx := ⟨-a.n, a.d⟩

def Fx.ltb (a b : Fx) : Bool := a.n * b.d < b.n * a.d

def Fx.eqb (a b : Fx) : Bool := a.n * b.d == b.n * a.d

def Fx.floor (a : Fx) : Int := a.n.ediv a.d

/-- The rational value of a fraction. -/
def Fx.toRat (a : Fx) : ℚ := (a.n : ℚ) / (a.d : ℚ)

/-- Fuelled floor of log2 (the fuel 4096 far exceeds any bit length arising
here); avoids well-founded recursion, which the kernel cannot unfold. -/
def flog2 : Nat → Nat → Nat
  | 0, _ => 0
  | fuel + 1, n => if n ≤ 1 then 0 else flog2 fuel (n / 2) + 1

def ipow2 (k : Nat) : Int := (2 : Int) ^ k

def Fx.pow2 (e : Int) : Fx :=
  if 0 ≤ e then ⟨ipow2 e.toNat, 1⟩ else ⟨1, ipow2 (-e).toNat⟩

/-- The binade exponent of a positive fraction `x`: the unique `e` with
2 ^ e ≤ x < 2 ^ (e + 1). -/
def Fx.expOfPos (x : Fx) : Int :=
  if Fx.ltb ⟨1, 1⟩ x || Fx.eqb x ⟨1, 1⟩ then
    (flog2 4096 x.floor.toNat : Int)
  else
    if Fx.eqb x (Fx.pow2 (-(flog2 4096 x.inv.floor.toNat : Int))) then
      -(flog2 4096 x.inv.floor.toNat : Int)
    else -(flog2 4096 x.inv.floor.toNat : Int) - 1

/-- Round a fraction to the nearest integer, ties to even. -/
def iroundNE (q : Fx) : Int :=
  if 2 * (q.n - q.floor * q.d) < q.d then q.floor
  else if q.d < 2 * (q.n - q.floor * q.d) then q.floor + 1
  else if q.floor % 2 = 0 then q.floor else q.floor + 1

/-- Round a positive fraction to the nearest IEEE binary64 value (53-bit
significand, round to nearest, ties to even; the values arising here are far
from overflow and underflow). -/
def flPosFx (x : Fx) : Fx :=
  if x.expOfPos ≤ 52 then
    ⟨iroundNE (x.mul ⟨ipow2 (52 - x.expOfPos).toNat, 1⟩),
     ipow2 (52 - x.expOfPos).toNat⟩
  else
    ⟨iroundNE (x.mul ⟨1, ipow2 (x.expOfPos - 52).toNat⟩) *
       ipow2 (x.expOfPos - 52).toNat, 1⟩

/-- Round any fraction to the nearest IEEE binary64 value. Python float
arithmetic performs exactly this rounding after each exact operation. -/
def flFx (x : Fx) : Fx :=
  if x.ltb ⟨0, 1⟩ then (flPosFx x.neg).neg
  else if x.eqb ⟨0, 1⟩ then ⟨0, 1⟩
  else flPosFx x

/-- `interval_hours = 5 / 60` as python computes it: the correctly rounded
binary64 quotient. -/
def pyIntervalFx : Fx := flFx ⟨5, 60⟩

/-- The loop `total_energy_wh += power * interval_hours` of pull_daily.py
under binary64 semantics: each product and each running sum is correctly
rounded. -/
def ieeeAccumWh : List Fx → Fx → Fx
  | [], s => s
  | p :: ps, s => ieeeAccumWh ps (flFx (s.add (flFx (p.mul pyIntervalFx))))

/-- `total_energy_kwh = total_energy_wh / 1000.0` under binary64 semantics:
the correctly rounded quotient of the accumulated sum. -/
def ieeeIntegrateKwh (powers : List Fx) : Fx :=
  flFx ((ieeeAccumWh powers ⟨0, 1⟩).mul ⟨1, 1000⟩)

/-- A persisted energy cursor at date 100 for plant 1. -/
def meta0 : List MetaDoc := [⟨1, some .energy, 100⟩]

/-- A window payload holding one negative-energy record and one normal one. -/
def rowsNegative : List EnergyRecord := [⟨.valid 100, .num (-5)⟩, ⟨.valid 99, .num 3⟩]

/-- A window payload whose single record reports the string "0.0": a zero
value, but not one of the shapes the stop test of
pull_historic_energy.py line 69 matches. -/
def rowsZeroString : List EnergyRecord := [⟨.valid 100, .strv (.numLit 0)⟩]

/-- A window payload holding one record of 7 kWh for day 100. -/
def rowsSeven : List EnergyRecord := [⟨.valid 100, .num 7⟩]

/-- A backfill state already holding 5 kWh for (plant 1, day 100). -/
def st5 : EnergyBackfillState := ⟨[⟨1, 100, 5⟩], []⟩

/-- 288 power samples of constant 1000 W at consecutive 5-minute instants:
one full 24-hour day. -/
def samples288 : List PowerRecord :=
  (List.range 288).map (fun i : Nat => ⟨.valid (i : Int), some 1000⟩)

/-- A single-day energy payload reporting 12 kWh for day 10. -/
def epOnce : Option (List EnergyRecord) := some [⟨.valid 10, .num 12⟩]

/-- A single-day power payload holding one sample of 500 W. -/
def ppOnce : Option (List PowerRecord) := some [⟨.valid 600, some 500⟩]

/-- The 288 constant powers of samples288, as binary64 values (1000.0 is
exactly representable). -/
def powers288 : List Fx := List.replicate 288 ⟨1000, 1⟩

/-- A 36-sample slice of powers288, small enough to evaluate in one kernel
reduction. -/
def chunk36 : List Fx := List.replicate 36 ⟨1000, 1⟩

/-- Membership after updateFirst: every element was already present or is an
image under the update. -/
theorem mem_updateFirst {α : Type} (p : α → Bool) (f : α → α) :
    ∀ (l : List α) (x : α), x ∈ updateFirst p f l → x ∈ l ∨ ∃ y ∈ l, x = f y := by
  intro l
  induction l with
  | nil => intro x hx; exact absurd hx (by simp [updateFirst])
  | cons a as ih =>
    intro x hx
    simp only [updateFirst] at hx
    by_cases hp : p a
    · simp only [hp, if_pos] at hx
      rcases List.mem_cons.mp hx with h | h
      · exact Or.inr ⟨a, List.mem_cons_self a as, h⟩
      · exact Or.inl (List.mem_cons_of_mem a h)
    · simp only [hp, if_neg, Bool.false_eq_true, not_false_iff] at hx
      rcases List.mem_cons.mp hx with h | h
      · exact Or.inl (h ▸ List.mem_cons_self a as)
      · rcases ih x h with h1 | ⟨y, hy, hxy⟩
        · exact Or.inl (List.mem_cons_of_mem a h1)
        · exact Or.inr ⟨y, List.mem_cons_of_mem a hy, hxy⟩

/-- Membership after an energy upsert: every element was already present or
is the upserted document. -/
theorem mem_upsertEnergy (store : List EnergyDoc) (doc e : EnergyDoc)
    (h : e ∈ upsertEnergy store doc) : e ∈ store ∨ e = doc := by
  unfold upsertEnergy at h
  split at h
  · rcases mem_updateFirst _ _ store e h with h1 | ⟨_, _, h2⟩
    · exact Or.inl h1
    · exact Or.inr h2
  · rcases List.mem_append.mp h with h1 | h1
    · exact Or.inl h1
    · exact Or.inr (List.mem_singleton.mp h1)

/-- A negative document is rejected by the validator (code 121) and the
store is untouched by it. -/
theorem insertManyEnergyV1_cons_neg (store : List EnergyDoc) (d : EnergyDoc)
    (ds : List EnergyDoc) (h : d.energy_kwh < 0) :
    insertManyEnergyV1 store (d :: ds)
      = ((insertManyEnergyV1 store ds).1, 121 :: (insertManyEnergyV1 store ds).2) := by
  simp [insertManyEnergyV1, insertOneEnergyV1, h]

/-- A duplicate of an existing key is rejected (code 11000) and the store is
untouched by it. -/
theorem insertManyEnergyV1_cons_dup (store : List EnergyDoc) (d : EnergyDoc)
    (ds : List EnergyDoc) (h1 : ¬ d.energy_kwh < 0)
    (h2 : store.any (fun e => e.plant_id == d.plant_id && e.date == d.date) = true) :
    insertManyEnergyV1 store (d :: ds)
      = ((insertManyEnergyV1 store ds).1, 11000 :: (insertManyEnergyV1 store ds).2) := by
  simp [insertManyEnergyV1, insertOneEnergyV1, h1, h2]

/-- A valid fresh document is appended. -/
theorem insertManyEnergyV1_cons_new (store : List EnergyDoc) (d : EnergyDoc)
    (ds : List EnergyDoc) (h1 : ¬ d.energy_kwh < 0)
    (h2 : ¬ store.any (fun e => e.plant_id == d.plant_id && e.date == d.date) = true) :
    insertManyEnergyV1 store (d :: ds) = insertManyEnergyV1 (store ++ [d]) ds := by
  simp [insertManyEnergyV1, insertOneEnergyV1, h1, h2]

/-- Membership after a validated bulk insert into solar_data.daily_energy:
every element was already present, or is one of the inserted documents and
passed the validator (so is non-negative). -/
theorem mem_insertManyEnergyV1 :
    ∀ (docs store : List EnergyDoc) (e : EnergyDoc),
      e ∈ (insertManyEnergyV1 store docs).1 →
      e ∈ store ∨ (e ∈ docs ∧ 0 ≤ e.energy_kwh) := by
  intro docs
  induction docs with
  | nil => intro store e he; simpa [insertManyEnergyV1] using he
  | cons d ds ih =>
    intro store e he
    by_cases hneg : d.energy_kwh < 0
    · rw [insertManyEnergyV1_cons_neg store d ds hneg] at he
      rcases ih store e he with h | ⟨h1, h2⟩
      · exact Or.inl h
      · exact Or.inr ⟨List.mem_cons_of_mem d h1, h2⟩
    · by_cases hdup :
        store.any (fun e => e.plant_id == d.plant_id && e.date == d.date) = true
      · rw [insertManyEnergyV1_cons_dup store d ds hneg hdup] at he
        rcases ih store e he with h | ⟨h1, h2⟩
        · exact Or.inl h
        · exact Or.inr ⟨List.mem_cons_of_mem d h1, h2⟩
      · rw [insertManyEnergyV1_cons_new store d ds hneg hdup] at he
        rcases ih (store ++ [d]) e he with h | ⟨h1, h2⟩
        · rcases List.mem_append.mp h with h3 | h3
          · exact Or.inl h3
          · refine Or.inr ⟨(List.mem_singleton.mp h3) ▸ List.mem_cons_self d ds, ?_⟩
            rw [List.mem_singleton.mp h3]
            exact le_of_not_lt hneg
        · exact Or.inr ⟨List.mem_cons_of_mem d h1, h2⟩

/-- C6: for a requested day, single-day energy validation stores a
DailyEnergy document if and only if the payload holds exactly one record
whose date parses to the requested day and whose energy parses to a
non-negative number; a payload with zero records, several records, a date
mismatch or a negative value is skipped and nothing is stored. -/
theorem c6_energy_validation (energy_data : Option (List EnergyRecord)) (date : Date)
    (plant : Int) (store : List EnergyDoc) :
    (∀ doc, validateEnergyData energy_data date plant = some doc ↔
      ∃ r kwh, energy_data = some [r] ∧ fromisoformat r.date = some date ∧
        floatOfE r.energy = some kwh ∧ 0 ≤ kwh ∧ doc = ⟨plant, date, kwh⟩)
    ∧ (validateEnergyData energy_data date plant = none →
        dailyEnergyStep store energy_data date plant = (store, none)) := by
  constructor
  · intro doc
    constructor
    · intro h
      match energy_data with
      | none => simp [validateEnergyData] at h
      | some [] => simp [validateEnergyData] at h
      | some (r1 :: r2 :: rs) => simp [validateEnergyData] at h
      | some [r] =>
        refine ⟨r, ?_⟩
        simp only [validateEnergyData] at h
        match hd : fromisoformat r.date, he : floatOfE r.energy with
        | none, none => rw [hd, he] at h; simp at h
        | none, some kwh => rw [hd, he] at h; simp at h
        | some day, none => rw [hd, he] at h; simp at h
        | some day, some kwh =>
          rw [hd, he] at h
          by_cases hday : day ≠ date
          · simp [hday] at h
          · push_neg at hday
            subst hday
            simp only [ne_eq, not_true_eq_false, if_false] at h
            by_cases hk : kwh < 0
            · simp [hk] at h
            · simp only [hk, if_false] at h
              exact ⟨kwh, rfl, rfl, rfl, le_of_not_lt hk, (Option.some_inj.mp h).symm⟩
    · rintro ⟨r, kwh, rfl, hd, he, hk, rfl⟩
      simp [validateEnergyData, hd, he, not_lt.mpr hk]
  · intro h
    simp [dailyEnergyStep, h]

/-- C6 witness: a valid single-record payload for day 5 yields the stored
document, and an empty payload is skipped leaving the store untouched. -/
theorem c6_energy_validation_witness :
    validateEnergyData (some [⟨.valid 5, .num 3⟩]) 5 1 = some ⟨1, 5, 3⟩
    ∧ dailyEnergyStep [] (some []) 5 1 = ([], none) :=
  ⟨((c6_energy_validation (some [⟨.valid 5, .num 3⟩]) 5 1 []).1 ⟨1, 5, 3⟩).mpr
      ⟨⟨.valid 5, .num 3⟩, 3, rfl, rfl, rfl, by norm_num, rfl⟩,
   (c6_energy_validation (some []) 5 1 []).2 (by decide)⟩

/-- C7: the reconciliation flags a discrepancy exactly when the absolute
difference exceeds the tolerance, `reconcile 24 24.5 1` is agreement,
`reconcile 24 26 1` is a discrepancy of 2, and a discrepancy is not fatal:
the power documents the single-day driver persists do not depend on the
reported energy figure at all. -/
theorem c7_reconcile :
    (∀ calculated reported tolerance : ℚ,
      (reconcile calculated reported tolerance = .agreement ↔
        ¬ |calculated - reported| > tolerance)
      ∧ (reconcile calculated reported tolerance = .discrepancy |calculated - reported| ↔
        |calculated - reported| > tolerance))
    ∧ reconcile 24 24.5 1 = .agreement
    ∧ reconcile 24 26 1 = .discrepancy 2
    ∧ (∀ store power_data plant e,
        (dailyPowerStep store power_data plant (some e)).1
          = (dailyPowerStep store power_data plant none).1) := by
  refine ⟨?_, ?_, ?_, ?_⟩
  · intro c r t
    constructor
    · unfold reconcile
      split
      · simp_all
      · simp_all
    · unfold reconcile
      split
      · simp_all
      · simp_all
  · have habs : |(24 : ℚ) - 24.5| = 1/2 := by
      rw [show (24 : ℚ) - 24.5 = -(1/2) by norm_num, abs_neg,
        abs_of_nonneg (by norm_num : (0 : ℚ) ≤ 1/2)]
    unfold reconcile
    rw [habs, if_neg (by norm_num : ¬ (1/2 : ℚ) > 1)]
  · have habs : |(24 : ℚ) - 26| = 2 := by
      rw [show (24 : ℚ) - 26 = -2 by norm_num, abs_neg,
        abs_of_nonneg (by norm_num : (0 : ℚ) ≤ 2)]
    unfold reconcile
    rw [habs, if_pos (by norm_num : (2 : ℚ) > 1)]
  · intro store power_data plant e
    match power_data with
    | none => rfl
    | some l =>
      simp only [dailyPowerStep]
      split
      · rfl
      · split
        · rfl
        · split
          · rfl
          · rfl

/-- C7 witness: the characterization applied at 24 vs 26 with tolerance 1. -/
theorem c7_reconcile_witness :
    |(24 : ℚ) - 26| > 1 ∧ reconcile 24 26 1 = .discrepancy |(24 : ℚ) - 26| := by
  have habs : |(24 : ℚ) - 26| = 2 := by
    rw [show (24 : ℚ) - 26 = -2 by norm_num, abs_neg,
      abs_of_nonneg (by norm_num : (0 : ℚ) ≤ 2)]
  have h1 : |(24 : ℚ) - 26| > 1 := by rw [habs]; norm_num
  exact ⟨h1, ((c7_reconcile.1 24 26 1).2).mpr h1⟩

/-- C2 (amended): documents stored by the single-day path are non-negative
because the validation skips negative records; the historical backfill path
preserves store non-negativity only because the store validator rejects its
unfiltered negative documents. -/
theorem c2_energy_nonneg_amended :
    (∀ energy_data date plant doc,
      validateEnergyData energy_data date plant = some doc → 0 ≤ doc.energy_kwh)
    ∧ (∀ store energy_data date plant, (∀ e ∈ store, 0 ≤ e.energy_kwh) →
        ∀ e ∈ (dailyEnergyStep store energy_data date plant).1, 0 ≤ e.energy_kwh)
    ∧ (∀ plant st cursor_end rows, (∀ e ∈ st.ener, 0 ≤ e.energy_kwh) →
        ∀ e ∈ (energyBackfillStep plant st cursor_end rows).2.1.ener,
          0 ≤ e.energy_kwh) := by
  have hv : ∀ energy_data date plant doc,
      validateEnergyData energy_data date plant = some doc → 0 ≤ doc.energy_kwh := by
    intro ed d p doc h
    match ed with
    | none => simp [validateEnergyData] at h
    | some [] => simp [validateEnergyData] at h
    | some (r1 :: r2 :: rs) => simp [validateEnergyData] at h
    | some [r] =>
      simp only [validateEnergyData] at h
      match hd : fromisoformat r.date, he : floatOfE r.energy with
      | none, none => rw [hd, he] at h; simp at h
      | none, some kwh => rw [hd, he] at h; simp at h
      | some day, none => rw [hd, he] at h; simp at h
      | some day, some kwh =>
        rw [hd, he] at h
        by_cases hday : day ≠ d
        · simp [hday] at h
        · push_neg at hday
          subst hday
          simp only [ne_eq, not_true_eq_false, if_false] at h
          by_cases hk : kwh < 0
          · simp [hk] at h
          · simp only [hk, if_false] at h
            cases Option.some_inj.mp h
            exact le_of_not_lt hk
  refine ⟨hv, ?_, ?_⟩
  · intro store ed d p hstore e he
    unfold dailyEnergyStep at he
    match hval : validateEnergyData ed d p with
    | none => rw [hval] at he; exact hstore e he
    | some doc =>
      rw [hval] at he
      rcases mem_upsertEnergy store doc e he with h | rfl
      · exact hstore e h
      · exact hv ed d p e hval
  · intro plant st ce rows hstore e he
    unfold energyBackfillStep at he
    split at he
    · exact hstore e he
    · split at he
      · exact hstore e he
      · split at he
        · rcases mem_insertManyEnergyV1 _ _ _ he with h | ⟨_, h2⟩
          · exact hstore e h
          · exact h2
        · rcases mem_insertManyEnergyV1 _ _ _ he with h | ⟨_, h2⟩
          · exact hstore e h
          · exact h2

/-- C2 counterexample: a backfill window holding a record whose energy
parses to −5 is not skipped — the negative document is part of the insert
batch; the store validator rejects it (code 121 is not 11000), so the run
raises instead of skipping, and only the valid row is stored. -/
theorem c2_counterexample :
    EnergyDoc.mk 1 100 (-5) ∈ energyBackfillDocs 1 rowsNegative
    ∧ ((-5 : ℚ) < 0)
    ∧ (energyBackfillStep 1 ⟨[], []⟩ 100 rowsNegative).2.2 = .raised
    ∧ (energyBackfillStep 1 ⟨[], []⟩ 100 rowsNegative).2.1.ener = [⟨1, 99, 3⟩] :=
  ⟨by decide, by decide, by decide, by decide⟩

/-- C2 witness: the backfill invariant applied to an empty store and the
negative-row window. -/
theorem c2_energy_nonneg_amended_witness :
    (∀ e ∈ (⟨[], []⟩ : EnergyBackfillState).ener, 0 ≤ e.energy_kwh)
    ∧ ∀ e ∈ (energyBackfillStep 1 ⟨[], []⟩ 100 rowsNegative).2.1.ener,
        0 ≤ e.energy_kwh :=
  ⟨by simp, c2_energy_nonneg_amended.2.2 1 ⟨[], []⟩ 100 rowsNegative (by simp)⟩

/-- C3: running the single-day sync twice for the same date over identical
payloads does not leave the store identical to one run: the DailyEnergy
upsert is idempotent, but the power insert is not — solar_data_v2 has no
unique index on (plant_id, timestamp), so the second run appends duplicate
PowerSample rows. -/
theorem c3_duplicate_power_rows :
    pullDailyData (pullDailyData ⟨[], []⟩ epOnce ppOnce 10 1) epOnce ppOnce 10 1
      = ⟨[⟨1, 10, 12⟩], [⟨1, 600, 500⟩, ⟨1, 600, 500⟩]⟩
    ∧ pullDailyData ⟨[], []⟩ epOnce ppOnce 10 1 = ⟨[⟨1, 10, 12⟩], [⟨1, 600, 500⟩]⟩
    ∧ ([⟨1, 600, 500⟩, ⟨1, 600, 500⟩] : List PowerDoc) ≠ [⟨1, 600, 500⟩] :=
  ⟨by decide, by decide, by decide⟩

/-- C4 (amended): a window response with zero rows stops the driver without
writing a cursor, and so does a window whose every row's value is null,
numeric zero, the empty string or the exact string "0" (energy), or null or
numeric zero (power); a zero in another string shape is not matched by the
stop test. -/
theorem c4_stop_conditions_amended :
    (∀ plant st cursor_end rows,
      (rows = [] ∨ ∀ r ∈ rows, r.energy = .null ∨ r.energy = .num 0 ∨
        r.energy = .strv .empty ∨ r.energy = .strv .zeroLit) →
      energyBackfillStep plant st cursor_end rows = ([], st, .stopped))
    ∧ (∀ plant st cursor records,
      (records = [] ∨ ∀ r ∈ records, r.power = none ∨ r.power = some 0) →
      powerBackfillStep plant st cursor records = ([], st, .stopped)) := by
  constructor
  · intro plant st ce rows h
    have hstop : rows.isEmpty = true ∨
        rows.all (fun r => isEnergyStop r.energy) = true := by
      rcases h with rfl | h
      · exact Or.inl rfl
      · refine Or.inr (List.all_eq_true.mpr ?_)
        intro r hr
        rcases h r hr with h1 | h1 | h1 | h1 <;> rw [h1] <;> decide
    unfold energyBackfillStep
    rcases hstop with h1 | h1
    · rw [if_pos h1]
    · by_cases h2 : rows.isEmpty
      · rw [if_pos h2]
      · rw [if_neg h2, if_pos h1]
  · intro plant st cursor records h
    have hstop : records.isEmpty = true ∨
        records.all (fun r => isPowerStop r.power) = true := by
      rcases h with rfl | h
      · exact Or.inl rfl
      · refine Or.inr (List.all_eq_true.mpr ?_)
        intro r hr
        rcases h r hr with h1 | h1 <;> rw [h1] <;> decide
    unfold powerBackfillStep
    rcases hstop with h1 | h1
    · rw [if_pos h1]
    · by_cases h2 : records.isEmpty
      · rw [if_pos h2]
      · rw [if_neg h2, if_pos h1]

/-- C4 counterexample: a window whose single row reports the string "0.0" —
a zero value, as its parse shows — does not stop the driver: the iteration
persists the window and writes the cursor. -/
theorem c4_zero_string_counterexample :
    floatOfE (EField.strv (.numLit 0)) = some 0
    ∧ (energyBackfillStep 1 ⟨[], []⟩ 100 rowsZeroString).2.2 = .continued 93
    ∧ (energyBackfillStep 1 ⟨[], []⟩ 100 rowsZeroString).2.1.meta
        = [⟨1, some .energy, 94⟩] :=
  ⟨by decide, by decide, by decide⟩

/-- C4 witness: the stop theorem applied to a zero-row window. -/
theorem c4_stop_conditions_amended_witness :
    (([] : List EnergyRecord) = [] ∨ ∀ r ∈ ([] : List EnergyRecord),
      r.energy = .null ∨ r.energy = .num 0 ∨ r.energy = .strv .empty ∨
      r.energy = .strv .zeroLit)
    ∧ energyBackfillStep 1 ⟨[], []⟩ 100 [] = ([], ⟨[], []⟩, .stopped) :=
  ⟨Or.inl rfl, c4_stop_conditions_amended.1 1 ⟨[], []⟩ 100 [] (Or.inl rfl)⟩

/-- C5 (amended): whenever a backfill iteration writes a cursor, the trace is
exactly the insert-many of the window's parsed documents followed by the
cursor write, and the cursor value is the window's start date; both metrics
persist by duplicate-tolerant insert-many (the energy backfill does not
upsert per day). -/
theorem c5_persist_then_cursor_amended :
    (∀ plant st cursor_end rows p m d,
      StoreOp.cursorWrite p m d ∈ (energyBackfillStep plant st cursor_end rows).1 →
        (energyBackfillStep plant st cursor_end rows).1
          = [.insertEnergyDocs (energyBackfillDocs plant rows),
             .cursorWrite plant (some .energy) (cursor_end - 6)]
        ∧ d = cursor_end - 6)
    ∧ (∀ plant st cursor records p m d,
      StoreOp.cursorWrite p m d ∈ (powerBackfillStep plant st cursor records).1 →
        ∃ docs, powerBackfillDocs plant records = some docs ∧
          (powerBackfillStep plant st cursor records).1
            = [.insertPowerDocs docs, .cursorWrite plant none cursor]
          ∧ d = cursor) := by
  constructor
  · intro plant st ce rows p m d hmem
    unfold energyBackfillStep at hmem
    split at hmem
    next h1 => simp at hmem
    next h1 =>
      split at hmem
      next h2 => simp at hmem
      next h2 =>
        split at hmem
        next h3 => simp at hmem
        next h3 =>
          rcases List.mem_cons.mp hmem with h | h
          · exact absurd h (by simp)
          · have h4 := List.mem_singleton.mp h
            injection h4 with hp hm hd
            refine ⟨?_, hd⟩
            unfold energyBackfillStep
            rw [if_neg h1, if_neg h2, if_neg h3]
  · intro plant st cursor records p m d hmem
    unfold powerBackfillStep at hmem
    split at hmem
    next h1 => simp at hmem
    next h1 =>
      split at hmem
      next h2 => simp at hmem
      next h2 =>
        split at hmem
        next h3 => simp at hmem
        next docs h3 =>
          rcases List.mem_cons.mp hmem with h | h
          · exact absurd h (by simp)
          · have h4 := List.mem_singleton.mp h
            injection h4 with hp hm hd
            refine ⟨docs, h3, ?_, hd⟩
            unfold powerBackfillStep
            rw [if_neg h1, if_neg h2, h3]

/-- C5 counterexample: the energy backfill does not persist by per-day
upsert. A window reporting 7 kWh for a day already stored at 5 kWh leaves
the stored 5 in place (the duplicate-key error is swallowed), while the
spec's upsert would replace it with 7. -/
theorem c5_not_upsert_counterexample :
    energyBackfillDocs 1 rowsSeven = [⟨1, 100, 7⟩]
    ∧ (energyBackfillStep 1 st5 100 rowsSeven).2.1.ener = [⟨1, 100, 5⟩]
    ∧ upsertEnergy [⟨1, 100, 5⟩] ⟨1, 100, 7⟩ = [⟨1, 100, 7⟩]
    ∧ ([⟨1, 100, 5⟩] : List EnergyDoc) ≠ [⟨1, 100, 7⟩] :=
  ⟨by decide, by decide, by decide, by decide⟩

/-- C5 witness: the trace theorem applied to a persisting window. -/
theorem c5_persist_then_cursor_amended_witness :
    StoreOp.cursorWrite 1 (some .energy) (100 - 6)
      ∈ (energyBackfillStep 1 ⟨[], []⟩ 100 rowsSeven).1
    ∧ ((energyBackfillStep 1 ⟨[], []⟩ 100 rowsSeven).1
        = [.insertEnergyDocs (energyBackfillDocs 1 rowsSeven),
           .cursorWrite 1 (some .energy) (100 - 6)]
      ∧ (100 - 6 : Date) = 100 - 6) :=
  ⟨by decide,
   c5_persist_then_cursor_amended.1 1 ⟨[], []⟩ 100 rowsSeven 1 (some .energy)
     (100 - 6) (by decide)⟩

/-- C9: cursor reads and writes are not all keyed by (plant_id, metric).
The power backfill keys by plant_id alone: on a store holding only the
energy cursor (date 100) it reads that cursor, resumes from it, and its
cursor write mutates the energy cursor document, which the energy driver
then reads back as 50. -/
theorem c9_cursor_keying :
    readCursorPower meta0 1 = some 100
    ∧ powerInitCursor meta0 1 200 = 100
    ∧ writeCursorPower meta0 1 50 = [⟨1, some .energy, 50⟩]
    ∧ readCursorEnergy (writeCursorPower meta0 1 50) 1 = some 50 :=
  ⟨by decide, by decide, by decide, by decide⟩

/-- C10 (amended): duplicate-key (11000) write errors are swallowed as
success by all three bulk-insert paths; a non-duplicate write error makes
both backfill handlers re-raise, but the single-day handler only logs it and
never re-raises. -/
theorem c10_bulk_error_amended :
    (∀ writeErrors : List ErrCode,
      (historicPowerBulkHandler writeErrors = .raised ↔ ∃ c ∈ writeErrors, c ≠ 11000)
      ∧ (historicEnergyBulkHandler writeErrors = .raised ↔ ∃ c ∈ writeErrors, c ≠ 11000)
      ∧ dailyBulkErrorHandler writeErrors ≠ .raised)
    ∧ (∀ writeErrors : List ErrCode, (∀ c ∈ writeErrors, c = 11000) →
        dailyBulkErrorHandler writeErrors = .success
        ∧ historicPowerBulkHandler writeErrors = .success
        ∧ historicEnergyBulkHandler writeErrors = .success) := by
  constructor
  · intro l
    refine ⟨?_, ?_, ?_⟩
    · unfold historicPowerBulkHandler
      split
      next h =>
        rw [bne_iff_ne] at h
        have h2 : ¬ ∀ a ∈ l, (fun c => c == 11000) a = true :=
          fun hall => h (List.countP_eq_length.mpr hall)
        simp only [beq_iff_eq] at h2
        push_neg at h2
        exact ⟨fun _ => h2, fun _ => rfl⟩
      next h =>
        simp only [bne_iff_ne, ne_eq, not_not] at h
        have hall := List.countP_eq_length.mp h
        simp only [beq_iff_eq] at hall
        constructor
        · intro hcontra; exact BulkOutcome.noConfusion hcontra
        · rintro ⟨c, hc, hne⟩; exact absurd (hall c hc) hne
    · unfold historicEnergyBulkHandler
      split
      next h =>
        simp only [List.any_eq_true, bne_iff_ne] at h
        exact ⟨fun _ => h, fun _ => rfl⟩
      next h =>
        simp only [List.any_eq_true, bne_iff_ne] at h
        constructor
        · intro hcontra; exact BulkOutcome.noConfusion hcontra
        · intro hex; exact absurd hex h
    · unfold dailyBulkErrorHandler
      split
      · exact fun h => BulkOutcome.noConfusion h
      · exact fun h => BulkOutcome.noConfusion h
  · intro l hall
    refine ⟨?_, ?_, ?_⟩
    · have hfil : l.filter (fun c => c != 11000) = [] :=
        List.filter_eq_nil_iff.mpr (fun c hc => by simp [hall c hc])
      simp [dailyBulkErrorHandler, hfil]
    · have hcount : l.countP (fun c => c == 11000) = l.length :=
        List.countP_eq_length.mpr (fun c hc => by simp [hall c hc])
      simp [historicPowerBulkHandler, hcount]
    · have hany : l.any (fun c => c != 11000) = false := by
        rw [List.any_eq_false]
        intro c hc
        simp [hall c hc]
      simp [historicEnergyBulkHandler, hany]

/-- C10 counterexample: a non-duplicate write error (code 121) in the
single-day power insert is logged but not re-raised, unlike in the backfill
handler. -/
theorem c10_daily_not_raised_counterexample :
    dailyBulkErrorHandler [121] = .loggedOnly
    ∧ historicEnergyBulkHandler [121] = .raised :=
  ⟨by decide, by decide⟩

/-- C10 witness: the all-duplicates case applied to two 11000 errors. -/
theorem c10_bulk_error_amended_witness :
    (∀ c ∈ [11000, 11000], c = 11000)
    ∧ (dailyBulkErrorHandler [11000, 11000] = .success
      ∧ historicPowerBulkHandler [11000, 11000] = .success
      ∧ historicEnergyBulkHandler [11000, 11000] = .success) :=
  ⟨by decide, c10_bulk_error_amended.2 [11000, 11000] (by decide)⟩

/-- A continuing energy backfill iteration steps the anchor back by exactly
7 days (window start minus one). -/
theorem energyStep_continued (plant : Int) (st : EnergyBackfillState) (ce : Date)
    (rows : List EnergyRecord) (ops : List StoreOp) (st1 : EnergyBackfillState)
    (ce1 : Date) (h : energyBackfillStep plant st ce rows = (ops, st1, .continued ce1)) :
    ce1 = ce - 7 := by
  unfold energyBackfillStep at h
  split at h
  · simp at h
  · split at h
    · simp at h
    · split at h
      · simp at h
      · simp only [Prod.mk.injEq] at h
        exact (BackfillOutcome.continued.inj h.2.2).symm

/-- A continuing power backfill iteration steps the anchor back by exactly
one day. -/
theorem powerStep_continued (plant : Int) (st : PowerBackfillState) (c : Date)
    (records : List PowerRecord) (ops : List StoreOp) (st1 : PowerBackfillState)
    (c1 : Date) (h : powerBackfillStep plant st c records = (ops, st1, .continued c1)) :
    c1 = c - 1 := by
  unfold powerBackfillStep at h
  split at h
  · simp at h
  · split at h
    · simp at h
    · split at h
      · simp at h
      · simp only [Prod.mk.injEq] at h
        exact (BackfillOutcome.continued.inj h.2.2).symm

/-- Every window an energy backfill run fetches is an inclusive 7-day window
whose end does not exceed the starting anchor. -/
theorem energyRun_windows (plant : Int) :
    ∀ (payloads : List (List EnergyRecord)) (st : EnergyBackfillState) (ce : Date),
      ∀ w ∈ (energyBackfillRun plant st ce payloads).1, w.1 = w.2 - 6 ∧ w.2 ≤ ce := by
  intro payloads
  induction payloads with
  | nil => intro st ce w hw; simp [energyBackfillRun] at hw
  | cons rows rest ih =>
    intro st ce w hw
    simp only [energyBackfillRun] at hw
    rcases hstep : energyBackfillStep plant st ce rows with ⟨ops, st1, out⟩
    rw [hstep] at hw
    match out with
    | .continued ce1 =>
      rcases List.mem_cons.mp hw with h | hmem
      · subst h; exact ⟨rfl, le_refl ce⟩
      · have hce1 : ce1 = ce - 7 := energyStep_continued plant st ce rows ops st1 ce1 hstep
        obtain ⟨h21, h22⟩ := ih st1 ce1 w hmem
        rw [hce1] at h22
        exact ⟨h21, le_trans h22 (sub_le_self ce (by norm_num))⟩
    | .stopped =>
      have h := List.mem_singleton.mp hw
      subst h; exact ⟨rfl, le_refl ce⟩
    | .raised =>
      have h := List.mem_singleton.mp hw
      subst h; exact ⟨rfl, le_refl ce⟩

/-- Every day a power backfill run fetches does not exceed the starting
anchor. -/
theorem powerRun_days (plant : Int) :
    ∀ (payloads : List (List PowerRecord)) (st : PowerBackfillState) (c : Date),
      ∀ d ∈ (powerBackfillRun plant st c payloads).1, d ≤ c := by
  intro payloads
  induction payloads with
  | nil => intro st c d hd; simp [powerBackfillRun] at hd
  | cons recs rest ih =>
    intro st c d hd
    simp only [powerBackfillRun] at hd
    rcases hstep : powerBackfillStep plant st c recs with ⟨ops, st1, out⟩
    rw [hstep] at hd
    match out with
    | .continued c1 =>
      rcases List.mem_cons.mp hd with h | hmem
      · exact le_of_eq h
      · have hc1 : c1 = c - 1 := powerStep_continued plant st c recs ops st1 c1 hstep
        have h2 := ih st1 c1 d hmem
        rw [hc1] at h2
        exact le_trans h2 (sub_le_self c (by norm_num))
    | .stopped => exact le_of_eq (List.mem_singleton.mp hd)
    | .raised => exact le_of_eq (List.mem_singleton.mp hd)

/-- C1 (amended): with a persisted cursor at date X, a fresh energy backfill
invocation issues its first fetch for the window ending at X itself (it
re-fetches the already-persisted window whose start was X), and no window of
the run ever extends past X; likewise the power driver resumes at day X and
never fetches a later day. -/
theorem c1_resume_amended :
    (∀ plant meta today x st payloads,
      readCursorEnergy meta plant = some x →
        energyFirstWindow meta plant today = (x - 6, x)
        ∧ ∀ w ∈ (energyBackfillRun plant st (energyInitCursorEnd meta plant today)
            payloads).1, w.1 = w.2 - 6 ∧ w.2 ≤ x)
    ∧ (∀ plant meta today x st payloads,
      readCursorPower meta plant = some x →
        powerInitCursor meta plant today = x
        ∧ ∀ d ∈ (powerBackfillRun plant st (powerInitCursor meta plant today)
            payloads).1, d ≤ x) := by
  constructor
  · intro plant meta today x st payloads h
    have hinit : energyInitCursorEnd meta plant today = x := by
      unfold energyInitCursorEnd; rw [h]; rfl
    refine ⟨?_, ?_⟩
    · unfold energyFirstWindow
      rw [hinit]
    · rw [hinit]
      exact fun w hw => energyRun_windows plant payloads st x w hw
  · intro plant meta today x st payloads h
    have hinit : powerInitCursor meta plant today = x := by
      unfold powerInitCursor; rw [h]; rfl
    refine ⟨hinit, ?_⟩
    · rw [hinit]
      exact fun d hd => powerRun_days plant payloads st x d hd

/-- C1 counterexample: with a persisted energy cursor at X = 100 the fresh
driver's first window is (94, 100): it ends at X, not at X − 1, and the
inclusive window bounds re-request X itself. -/
theorem c1_first_window_counterexample :
    energyFirstWindow meta0 1 200 = (94, 100)
    ∧ (energyFirstWindow meta0 1 200).2 ≠ 100 - 1
    ∧ ((energyFirstWindow meta0 1 200).1 ≤ 100
      ∧ (100 : Date) ≤ (energyFirstWindow meta0 1 200).2) :=
  ⟨by decide, by decide, by decide⟩

/-- C1 witness: the resume theorem applied to the cursor-at-100 store with a
one-window run. -/
theorem c1_resume_amended_witness :
    readCursorEnergy meta0 1 = some 100
    ∧ (energyFirstWindow meta0 1 200 = (100 - 6, 100)
      ∧ ∀ w ∈ (energyBackfillRun 1 ⟨[], []⟩ (energyInitCursorEnd meta0 1 200)
          [rowsSeven]).1, w.1 = w.2 - 6 ∧ w.2 ≤ 100) :=
  ⟨by decide, c1_resume_amended.1 1 meta0 200 100 ⟨[], []⟩ [rowsSeven] (by decide)⟩

/-- The foldl accumulation equals the closed rectangle-rule sum (exact
arithmetic). -/
theorem totalEnergyWh_foldl (l : List PowerDoc) :
    ∀ a : ℚ, l.foldl (fun s d => s + d.power_w * interval_hours) a
      = a + ((l.map (fun d => d.power_w)).sum) * interval_hours := by
  induction l with
  | nil => intro a; simp
  | cons d ds ih =>
    intro a
    simp only [List.foldl_cons, List.map_cons, List.sum_cons, ih]
    ring

/-- The binary64 accumulation splits over list append. -/
theorem ieeeAccumWh_append (l1 l2 : List Fx) (s : Fx) :
    ieeeAccumWh (l1 ++ l2) s = ieeeAccumWh l2 (ieeeAccumWh l1 s) := by
  induction l1 generalizing s with
  | nil => rfl
  | cons p ps ih => simp [ieeeAccumWh, ih]

set_option maxRecDepth 10000 in
/-- 36 binary64 accumulation steps of 1000 W from 0. -/
theorem ieeeChunkStep1 : ieeeAccumWh chunk36 ⟨0, 1⟩ = ⟨6597069766656002, 2199023255552⟩ := by
  decide

set_option maxRecDepth 10000 in
/-- 36 further binary64 accumulation steps. -/
theorem ieeeChunkStep2 :
    ieeeAccumWh chunk36 ⟨6597069766656002, 2199023255552⟩
      = ⟨6597069766655996, 1099511627776⟩ := by
  decide

set_option maxRecDepth 10000 in
/-- 36 further binary64 accumulation steps. -/
theorem ieeeChunkStep3 :
    ieeeAccumWh chunk36 ⟨6597069766655996, 1099511627776⟩
      = ⟨4947802324991997, 549755813888⟩ := by
  decide

set_option maxRecDepth 10000 in
/-- 36 further binary64 accumulation steps. -/
theorem ieeeChunkStep4 :
    ieeeAccumWh chunk36 ⟨4947802324991997, 549755813888⟩
      = ⟨6597069766656009, 549755813888⟩ := by
  decide

set_option maxRecDepth 10000 in
/-- 36 further binary64 accumulation steps. -/
theorem ieeeChunkStep5 :
    ieeeAccumWh chunk36 ⟨6597069766656009, 549755813888⟩
      = ⟨8246337208320021, 549755813888⟩ := by
  decide

set_option maxRecDepth 10000 in
/-- 36 further binary64 accumulation steps. -/
theorem ieeeChunkStep6 :
    ieeeAccumWh chunk36 ⟨8246337208320021, 549755813888⟩
      = ⟨4947802324992007, 274877906944⟩ := by
  decide

set_option maxRecDepth 10000 in
/-- 36 further binary64 accumulation steps. -/
theorem ieeeChunkStep7 :
    ieeeAccumWh chunk36 ⟨4947802324992007, 274877906944⟩
      = ⟨5772436045823995, 274877906944⟩ := by
  decide

set_option maxRecDepth 10000 in
/-- 36 further binary64 accumulation steps. -/
theorem ieeeChunkStep8 :
    ieeeAccumWh chunk36 ⟨5772436045823995, 274877906944⟩
      = ⟨6597069766655983, 274877906944⟩ := by
  decide

set_option maxRecDepth 10000 in
/-- The full 288-step binary64 accumulation: 23999.999999999938… Wh, not
24000. -/
theorem ieeeAccumWh_powers288 :
    ieeeAccumWh powers288 ⟨0, 1⟩ = ⟨6597069766655983, 274877906944⟩ := by
  have hsplit : powers288 = chunk36 ++ (chunk36 ++ (chunk36 ++ (chunk36 ++
      (chunk36 ++ (chunk36 ++ (chunk36 ++ chunk36)))))) := by decide
  rw [hsplit, ieeeAccumWh_append, ieeeChunkStep1, ieeeAccumWh_append, ieeeChunkStep2,
    ieeeAccumWh_append, ieeeChunkStep3, ieeeAccumWh_append, ieeeChunkStep4,
    ieeeAccumWh_append, ieeeChunkStep5, ieeeAccumWh_append, ieeeChunkStep6,
    ieeeAccumWh_append, ieeeChunkStep7]
  exact ieeeChunkStep8

set_option maxRecDepth 10000 in
/-- The binary64 value of the 288-sample day's computed kWh. -/
theorem ieeeIntegrateKwh_powers288 :
    ieeeIntegrateKwh powers288 = ⟨6755399441055727, 281474976710656⟩ := by
  unfold ieeeIntegrateKwh
  rw [ieeeAccumWh_powers288]
  decide

/-- Sanity anchors of the binary64 rounding model against well-known double
facts: 0.1 + 0.2 yields 0.30000000000000004 and differs from 0.3. -/
theorem flFx_known_doubles :
    flFx ((flFx ⟨1, 10⟩).add (flFx ⟨2, 10⟩)) = ⟨5404319552844596, 18014398509481984⟩
    ∧ flFx ⟨3, 10⟩ = ⟨5404319552844595, 18014398509481984⟩
    ∧ flFx ⟨5, 60⟩ = ⟨6004799503160661, 72057594037927936⟩ := by
  refine ⟨by decide, by decide, by decide⟩

/-- C8 (amended): integrateEnergy equals the rectangle rule
sum(power_w) × intervalHours / 1000 over the retained samples and yields
exactly 24 kWh on the 288-sample constant-1000 W day — in exact rational
arithmetic; under the binary64 semantics of the source's float arithmetic the
same day computes to 6755399441055727/2^48 ≈ 23.99999999999994 kWh. -/
theorem c8_integration_amended :
    (∀ plant samples, totalEnergyKwh (powerDocs plant samples)
      = ((powerDocs plant samples).map (fun d => d.power_w)).sum * interval_hours / 1000)
    ∧ totalEnergyKwh (powerDocs 1 samples288) = 24
    ∧ Fx.toRat (ieeeIntegrateKwh powers288) = 6755399441055727 / 281474976710656 := by
  have hgen : ∀ docs : List PowerDoc, totalEnergyKwh docs
      = ((docs.map (fun d => d.power_w)).sum) * interval_hours / 1000 := by
    intro docs
    unfold totalEnergyKwh totalEnergyWh
    rw [totalEnergyWh_foldl]
    ring
  refine ⟨fun plant samples => hgen (powerDocs plant samples), ?_, ?_⟩
  · have hmap : (powerDocs 1 samples288).map (fun d => d.power_w)
        = List.replicate 288 (1000 : ℚ) := by
      unfold samples288 powerDocs
      rw [List.filterMap_map]
      rw [show ((parsePowerRecord 1) ∘ fun i : Nat =>
          (⟨.valid (i : Int), some 1000⟩ : PowerRecord))
        = some ∘ (fun i : Nat => (⟨1, (i : Int), 1000⟩ : PowerDoc)) from rfl]
      rw [List.filterMap_eq_map, List.map_map]
      rw [show ((fun d : PowerDoc => d.power_w) ∘ fun i : Nat =>
          (⟨1, (i : Int), 1000⟩ : PowerDoc)) = fun _ : Nat => (1000 : ℚ) from rfl]
      rw [List.map_const', List.length_range]
    rw [hgen, hmap, List.sum_replicate]
    show (288 : ℕ) • (1000 : ℚ) * interval_hours / 1000 = 24
    rw [nsmul_eq_mul]
    unfold interval_hours
    norm_num
  · rw [ieeeIntegrateKwh_powers288]
    unfold Fx.toRat
    norm_num

/-- C8 counterexample: executed in double precision as python does, the
288-sample constant-1000 W day does not yield exactly 24.0 kWh. -/
theorem c8_ieee_counterexample : Fx.toRat (ieeeIntegrateKwh powers288) ≠ 24 := by
  rw [ieeeIntegrateKwh_powers288]
  unfold Fx.toRat
  norm_num

end Solar
